import Mathlib

/-
Verification of the SSR rule helpers module (src/lib/rule-helpers.js) of
eslint-plugin-lwc.  The module exports three rule factories built on a shared
reachability tracker:

  - reachableDuringSSRPartial : mutable traversal context (which class, method,
    module-scoped function, and escape-guard conditional the walk is currently
    inside), exposed through three boolean queries;
  - noReferenceDuringSSR      : forbidden-global-reference rule;
  - noPropertyAccessDuringSSR : forbidden-instance-property rule;
  - noNodeEnvInSSR            : process.env.NODE_ENV rule.

The embedding models the ESTree syntax tree as a mutual inductive type, the
ESLint traversal driver as a document-order enter/exit event list, the tracker
closure state as an explicit record threaded through the events, and each
callback of the source as a Lean function transliterated from the code.

External collaborators (declared out of scope by the specification, and not
under src/) are modelled as oracle data carried on the input:
  - analyze (component-shape analyzer, src/lib/analyze-component.js): its
    result is the ModuleInfo parameter of every run;
  - isSSREscape (src/lib/util/ssr.js): its verdict is the escape field carried
    on each IfStatement node;
  - isGlobalIdentifier (src/lib/util/scope.js): its verdict is the isGlobal
    field carried on each Identifier node.
-/

namespace RuleHelpers

/-- Node kinds (the ESTree type tags) that the source inspects. -/
inductive NType where
  | program | classDeclaration | functionDeclaration | functionExpression
  | arrowFunctionExpression | methodDefinition | ifStatement
  | variableDeclaration | variableDeclarator | expressionStatement | blockStatement
  | callExpression | memberExpression | chainExpression | identifier | thisExpression | literal
  deriving DecidableEq, Repr

mutual
/-- Shallow embedding of the ESTree nodes traversed by the rules.  Every node
carries a numeric id standing for JavaScript reference identity (the source
compares nodes with ===).  The escape field on ifStmt is the verdict of the
external isSSREscape predicate for that conditional; the isGlobal field on
identifier is the verdict of the external isGlobalIdentifier resolver for that
identifier occurrence (both collaborators are outside src/ and are modelled
from the spec as oracles, per section 6 of the specification). -/
inductive Node where
  | program (nid : Nat) (body : NodeList)
  | classDecl (nid : Nat) (body : NodeList)
  | funcDecl (nid : Nat) (fid : NodeOpt) (params : NodeList) (body : NodeList)
  | funcExpr (nid : Nat) (params : NodeList) (body : NodeList)
  | arrowFuncExpr (nid : Nat) (params : NodeList) (body : NodeList)
  | methodDef (nid : Nat) (key : Node) (value : Node)
  | ifStmt (nid : Nat) (escape : Bool) (test : Node) (consequent : Node) (alternate : NodeOpt)
  | varDecl (nid : Nat) (decls : NodeList)
  | varDeclarator (nid : Nat) (vid : Node) (init : NodeOpt)
  | exprStmt (nid : Nat) (expr : Node)
  | blockStmt (nid : Nat) (body : NodeList)
  | callExpr (nid : Nat) (callee : Node) (args : NodeList) (optional : Bool)
  | memberExpr (nid : Nat) (object : Node) (property : Node) (optional : Bool)
  | chainExpr (nid : Nat) (expr : Node)
  | identifier (nid : Nat) (name : String) (isGlobal : Bool)
  | thisExpr (nid : Nat)
  | literal (nid : Nat)
/-- List of sibling nodes (kept inside the mutual block so that all recursion
over the tree is plain structural recursion). -/
inductive NodeList where
  | nil
  | cons (head : Node) (tail : NodeList)
/-- Optional child node (for example the alternate branch of an IfStatement). -/
inductive NodeOpt where
  | none
  | some (node : Node)
end

/-- Reference identity of a node, modelling the JavaScript === comparison on
node objects used by the source. -/
def Node.nid : Node → Nat
  | .program i _ => i
  | .classDecl i _ => i
  | .funcDecl i _ _ _ => i
  | .funcExpr i _ _ => i
  | .arrowFuncExpr i _ _ => i
  | .methodDef i _ _ => i
  | .ifStmt i _ _ _ _ => i
  | .varDecl i _ => i
  | .varDeclarator i _ _ => i
  | .exprStmt i _ => i
  | .blockStmt i _ => i
  | .callExpr i _ _ _ => i
  | .memberExpr i _ _ _ => i
  | .chainExpr i _ => i
  | .identifier i _ _ => i
  | .thisExpr i => i
  | .literal i => i

/-- The ESTree type tag of a node (the `.type` string field read by the source). -/
def Node.ntype : Node → NType
  | .program _ _ => .program
  | .classDecl _ _ => .classDeclaration
  | .funcDecl _ _ _ _ => .functionDeclaration
  | .funcExpr _ _ _ => .functionExpression
  | .arrowFuncExpr _ _ _ => .arrowFunctionExpression
  | .methodDef _ _ _ => .methodDefinition
  | .ifStmt _ _ _ _ _ => .ifStatement
  | .varDecl _ _ => .variableDeclaration
  | .varDeclarator _ _ _ => .variableDeclarator
  | .exprStmt _ _ => .expressionStatement
  | .blockStmt _ _ => .blockStatement
  | .callExpr _ _ _ _ => .callExpression
  | .memberExpr _ _ _ _ => .memberExpression
  | .chainExpr _ _ => .chainExpression
  | .identifier _ _ _ => .identifier
  | .thisExpr _ => .thisExpression
  | .literal _ => .literal

/-- Reading `.name` off a node: some name for an Identifier, none otherwise
(in JavaScript the field is undefined on other node kinds). -/
def identName : Node → Option String
  | .identifier _ nm _ => Option.some nm
  | _ => Option.none

/-- Modelled from the spec: the external global-binding resolver
isGlobalIdentifier (src/lib/util/scope.js, not under src/).  Section 6 of the
specification describes it as a predicate deciding whether an identifier
reference resolves to the true global binding rather than a local shadow; its
verdict for each identifier occurrence is carried as the isGlobal field of the
node.  On non-identifier nodes the resolver cannot succeed, hence false. -/
def isGlobalIdentifier : Node → Bool
  | .identifier _ _ g => g
  | _ => false

/-- Reading `.optional` off a node (false where the field is absent, matching
the `!== true` comparisons in the source). -/
def nodeOptional : Node → Bool
  | .memberExpr _ _ _ o => o
  | .callExpr _ _ _ o => o
  | _ => false

/-- Result of the external component-shape analyzer (analyze, called once at
the Program node).  The class declaration is identified by node id. -/
structure ModuleInfo where
  lwcClassDeclaration : Option Nat
  moduleScopedFunctionsReachableDuringSSR : List String
  methodsReachableDuringSSR : List String

/-- The mutable closure state of reachableDuringSSRPartial: insideLWC plus the
three single-slot node references (stored as node ids). -/
structure TrackerState where
  insideLWC : Bool
  reachableFunctionThatWeAreIn : Option Nat
  reachableMethodThatWeAreIn : Option Nat
  skippedBlockThatWeAreIn : Option Nat
  deriving DecidableEq, Repr

/-- Initial tracker state (all closure variables of the source start false/null). -/
def initialTracker : TrackerState :=
  { insideLWC := false
    reachableFunctionThatWeAreIn := Option.none
    reachableMethodThatWeAreIn := Option.none
    skippedBlockThatWeAreIn := Option.none }

/-- Enter callbacks of reachableDuringSSRPartial (lines 24 to 98 of
rule-helpers.js), transliterated per node kind.  The parent argument models
`node.parent`.  Node kinds without a registered enter callback leave the state
unchanged. -/
def trackerEnter (mi : ModuleInfo) (parent : Option Node) (st : TrackerState) : Node → TrackerState
  | .classDecl nid _ =>
      if mi.lwcClassDeclaration = Option.some nid then { st with insideLWC := true } else st
  | .funcDecl nid fid _ _ =>
      if (st.reachableFunctionThatWeAreIn == Option.none) &&
          (match fid with
           | .some (.identifier _ nm _) =>
               mi.moduleScopedFunctionsReachableDuringSSR.contains nm
           | _ => false) then
        { st with reachableFunctionThatWeAreIn := Option.some nid }
      else st
  | .funcExpr nid _ _ =>
      if (st.reachableFunctionThatWeAreIn == Option.none) &&
          (match parent with
           | Option.some (.varDeclarator _ (.identifier _ nm _) _) =>
               mi.moduleScopedFunctionsReachableDuringSSR.contains nm
           | _ => false) then
        { st with reachableFunctionThatWeAreIn := Option.some nid }
      else st
  | .arrowFuncExpr nid _ _ =>
      if (st.reachableFunctionThatWeAreIn == Option.none) &&
          (match parent with
           | Option.some (.varDeclarator _ (.identifier _ nm _) _) =>
               mi.moduleScopedFunctionsReachableDuringSSR.contains nm
           | _ => false) then
        { st with reachableFunctionThatWeAreIn := Option.some nid }
      else st
  | .methodDef nid key _ =>
      if st.insideLWC &&
          (match key with
           | .identifier _ nm _ => mi.methodsReachableDuringSSR.contains nm
           | _ => false) then
        { st with reachableMethodThatWeAreIn := Option.some nid }
      else st
  | .ifStmt nid escape _ _ _ =>
      if escape then { st with skippedBlockThatWeAreIn := Option.some nid } else st
  | _ => st

/-- Exit callbacks of reachableDuringSSRPartial, transliterated per node kind.
The identity comparisons of the source (node === recorded node) become id
comparisons. -/
def trackerExit (mi : ModuleInfo) (st : TrackerState) : Node → TrackerState
  | .classDecl nid _ =>
      if mi.lwcClassDeclaration = Option.some nid then { st with insideLWC := false } else st
  | .funcDecl nid _ _ _ =>
      if st.reachableFunctionThatWeAreIn = Option.some nid then
        { st with reachableFunctionThatWeAreIn := Option.none }
      else st
  | .funcExpr nid _ _ =>
      if st.reachableFunctionThatWeAreIn = Option.some nid then
        { st with reachableFunctionThatWeAreIn := Option.none }
      else st
  | .arrowFuncExpr nid _ _ =>
      if st.reachableFunctionThatWeAreIn = Option.some nid then
        { st with reachableFunctionThatWeAreIn := Option.none }
      else st
  | .methodDef _ _ _ => { st with reachableMethodThatWeAreIn := Option.none }
  | .ifStmt nid _ _ _ _ =>
      if st.skippedBlockThatWeAreIn = Option.some nid then
        { st with skippedBlockThatWeAreIn := Option.none }
      else st
  | _ => st

/-- Query isInsideReachableMethod of the tracker (line 108). -/
def isInsideReachableMethod (st : TrackerState) : Bool :=
  st.insideLWC && st.reachableMethodThatWeAreIn.isSome

/-- Query isInsideReachableFunction of the tracker (line 109). -/
def isInsideReachableFunction (st : TrackerState) : Bool :=
  st.reachableFunctionThatWeAreIn.isSome

/-- Query isInsideSkippedBlock of the tracker (line 110). -/
def isInsideSkippedBlock (st : TrackerState) : Bool :=
  st.skippedBlockThatWeAreIn.isSome

/-- The moduleScopeDisqualifiers set (lines 114 to 118). -/
def moduleScopeDisqualifiers : List NType :=
  [.functionDeclaration, .functionExpression, .arrowFunctionExpression]

/-- The inModuleScope check (lines 120 to 127): no ancestor of the node is a
function.  The ancestors argument models context.getAncestors(), which only
has its type tags inspected. -/
def inModuleScope (anc : List NType) : Bool :=
  !(anc.any (fun t => moduleScopeDisqualifiers.contains t))

/-- A violation handed to context.report by noReferenceDuringSSR or
noNodeEnvInSSR: the messageId (looked up with .at, hence optional), the node
reported, and the data fields identifier and property (reads of `.name` that
can be undefined are optional). -/
structure Report where
  messageId : Option String
  nodeId : Nat
  identifier : Option String
  property : Option String
  deriving DecidableEq, Repr

/-- The MemberExpression callback of noReferenceDuringSSR (lines 143 to 199),
transliterated.  The anc argument models context.getAncestors() for the node,
parent models node.parent. -/
def noReferenceDuringSSR_MemberExpression (forbiddenGlobalNames : List String)
    (messageIds : List String) (st : TrackerState) (anc : List NType)
    (parent : Option Node) : Node → List Report
  | .memberExpr nid obj prop opt =>
      if (!(isInsideReachableMethod st) && !(isInsideReachableFunction st) &&
            !(inModuleScope anc)) || isInsideSkippedBlock st then
        []
      else if ((parent.map Node.ntype) == Option.some NType.memberExpression) &&
          (obj.ntype == NType.identifier) && (identName obj == Option.some "globalThis") &&
          (prop.ntype == NType.identifier) &&
          (match identName prop with
           | Option.some p => forbiddenGlobalNames.contains p
           | Option.none => false) &&
          ((match parent with
            | Option.some q => nodeOptional q
            | Option.none => false) != true) &&
          isGlobalIdentifier obj then
        [{ messageId := messageIds[1]?
           nodeId := nid
           identifier := identName prop
           property := match parent with
                       | Option.some (.memberExpr _ _ pr _) => identName pr
                       | _ => Option.none }]
      else if ((parent.map Node.ntype) != Option.some NType.memberExpression) &&
          (obj.ntype == NType.identifier) &&
          ((match identName obj with
            | Option.some o => forbiddenGlobalNames.contains o
            | Option.none => false) ||
           ((identName obj == Option.some "globalThis") && (opt != true))) &&
          isGlobalIdentifier obj then
        [{ messageId := messageIds[0]?
           nodeId := nid
           identifier := if identName obj == Option.some "globalThis" then identName prop
                         else identName obj
           property := Option.none }]
      else []
  | _ => []

/-- The Identifier callback of noReferenceDuringSSR (lines 200 to 228),
transliterated. -/
def noReferenceDuringSSR_Identifier (forbiddenGlobalNames : List String)
    (messageIds : List String) (st : TrackerState) (anc : List NType)
    (parent : Option Node) : Node → List Report
  | .identifier nid name g =>
      if (!(isInsideReachableMethod st) && !(isInsideReachableFunction st) &&
            !(inModuleScope anc)) || isInsideSkippedBlock st then
        []
      else if ((parent.map Node.ntype) != Option.some NType.memberExpression) &&
          forbiddenGlobalNames.contains name && g then
        [{ messageId := messageIds[0]?
           nodeId := nid
           identifier := Option.some name
           property := Option.none }]
      else []
  | _ => []

/-- The MemberExpression callback of noPropertyAccessDuringSSR (lines 241 to
252), transliterated.  The reporter collaborator receives the raw node, so the
output is the list of reported node ids. -/
def noPropertyAccessDuringSSR_MemberExpression (forbiddenPropertyNames : List String)
    (st : TrackerState) : Node → List Nat
  | .memberExpr nid obj prop _ =>
      if !(isInsideReachableMethod st) || isInsideSkippedBlock st then
        []
      else if (obj.ntype == NType.thisExpression) && (prop.ntype == NType.identifier) &&
          (match identName prop with
           | Option.some p => forbiddenPropertyNames.contains p
           | Option.none => false) then
        [nid]
      else []
  | _ => []

/-- The MemberExpression callback of noNodeEnvInSSR (lines 266 to 293),
transliterated.  The truthiness test `node.object.object &&` of the source is
subsumed by the match on the object being a member expression, whose object
child always exists in the embedding. -/
def noNodeEnvInSSR_MemberExpression (st : TrackerState) (anc : List NType)
    (_parent : Option Node) : Node → List Report
  | .memberExpr nid obj prop _ =>
      if (!(isInsideReachableMethod st) && !(isInsideReachableFunction st) &&
            !(inModuleScope anc)) || isInsideSkippedBlock st then
        []
      else if (prop.ntype == NType.identifier) && (identName prop == Option.some "NODE_ENV") &&
          (obj.ntype == NType.memberExpression) &&
          (match obj with
           | .memberExpr _ oo op _ =>
               (oo.ntype == NType.identifier) && (identName oo == Option.some "process") &&
               (op.ntype == NType.identifier) && (identName op == Option.some "env")
           | _ => false) then
        [{ messageId := Option.some "nodeEnvFound"
           nodeId := nid
           identifier := identName prop
           property := Option.none }]
      else []
  | _ => []

/-- Bundle of the node-entry callbacks a rule registers on top of the shared
tracker visitors.  The output type is the violation record type handed to the
reporting sink (Report for context.report, Nat node ids for the raw reporter
of noPropertyAccessDuringSSR). -/
structure Callbacks (R : Type) where
  onMemberExpression : TrackerState → List NType → Option Node → Node → List R
  onIdentifier : TrackerState → List NType → Option Node → Node → List R

/-- The rule object built by noReferenceDuringSSR (lines 129 to 230): the
tracker visitors plus the MemberExpression and Identifier callbacks. -/
def noReferenceDuringSSR (forbiddenGlobalNames messageIds : List String) : Callbacks Report :=
  { onMemberExpression := noReferenceDuringSSR_MemberExpression forbiddenGlobalNames messageIds
    onIdentifier := noReferenceDuringSSR_Identifier forbiddenGlobalNames messageIds }

/-- The rule object built by noPropertyAccessDuringSSR (lines 232 to 254). -/
def noPropertyAccessDuringSSR (forbiddenPropertyNames : List String) : Callbacks Nat :=
  { onMemberExpression := fun st _ _ n => noPropertyAccessDuringSSR_MemberExpression forbiddenPropertyNames st n
    onIdentifier := fun _ _ _ _ => [] }

/-- The rule object built by noNodeEnvInSSR (lines 256 to 295). -/
def noNodeEnvInSSR : Callbacks Report :=
  { onMemberExpression := noNodeEnvInSSR_MemberExpression
    onIdentifier := fun _ _ _ _ => [] }

/-- Enter or exit phase of a traversal event. -/
inductive Phase where
  | enter | exit
  deriving DecidableEq, Repr

/-- One node-enter or node-exit invocation delivered by the traversal driver,
together with the contextual data ESLint makes available at that point: the
parent node, the ancestor type tags (context.getAncestors()), and the ids of
the strictly enclosing open nodes. -/
structure Event where
  phase : Phase
  node : Node
  parent : Option Node
  ancestors : List NType
  opens : List Nat

mutual
/-- Document-order enter/exit event sequence for a node: its enter event, the
events of its children in ESTree order, then its exit event.  This models the
external traversal driver of section 6 of the specification. -/
def eventsNode (parent : Option Node) (anc : List NType) (opens : List Nat) : Node → List Event
  | .program nid body =>
      Event.mk .enter (.program nid body) parent anc opens ::
        (eventsList (Option.some (.program nid body)) (.program :: anc) (nid :: opens) body ++
          [Event.mk .exit (.program nid body) parent anc opens])
  | .classDecl nid body =>
      Event.mk .enter (.classDecl nid body) parent anc opens ::
        (eventsList (Option.some (.classDecl nid body)) (.classDeclaration :: anc) (nid :: opens) body ++
          [Event.mk .exit (.classDecl nid body) parent anc opens])
  | .funcDecl nid fid params body =>
      Event.mk .enter (.funcDecl nid fid params body) parent anc opens ::
        ((eventsOpt (Option.some (.funcDecl nid fid params body)) (.functionDeclaration :: anc) (nid :: opens) fid ++
          (eventsList (Option.some (.funcDecl nid fid params body)) (.functionDeclaration :: anc) (nid :: opens) params ++
           eventsList (Option.some (.funcDecl nid fid params body)) (.functionDeclaration :: anc) (nid :: opens) body)) ++
          [Event.mk .exit (.funcDecl nid fid params body) parent anc opens])
  | .funcExpr nid params body =>
      Event.mk .enter (.funcExpr nid params body) parent anc opens ::
        ((eventsList (Option.some (.funcExpr nid params body)) (.functionExpression :: anc) (nid :: opens) params ++
          eventsList (Option.some (.funcExpr nid params body)) (.functionExpression :: anc) (nid :: opens) body) ++
          [Event.mk .exit (.funcExpr nid params body) parent anc opens])
  | .arrowFuncExpr nid params body =>
      Event.mk .enter (.arrowFuncExpr nid params body) parent anc opens ::
        ((eventsList (Option.some (.arrowFuncExpr nid params body)) (.arrowFunctionExpression :: anc) (nid :: opens) params ++
          eventsList (Option.some (.arrowFuncExpr nid params body)) (.arrowFunctionExpression :: anc) (nid :: opens) body) ++
          [Event.mk .exit (.arrowFuncExpr nid params body) parent anc opens])
  | .methodDef nid key value =>
      Event.mk .enter (.methodDef nid key value) parent anc opens ::
        ((eventsNode (Option.some (.methodDef nid key value)) (.methodDefinition :: anc) (nid :: opens) key ++
          eventsNode (Option.some (.methodDef nid key value)) (.methodDefinition :: anc) (nid :: opens) value) ++
          [Event.mk .exit (.methodDef nid key value) parent anc opens])
  | .ifStmt nid escape test consequent alternate =>
      Event.mk .enter (.ifStmt nid escape test consequent alternate) parent anc opens ::
        ((eventsNode (Option.some (.ifStmt nid escape test consequent alternate)) (.ifStatement :: anc) (nid :: opens) test ++
          (eventsNode (Option.some (.ifStmt nid escape test consequent alternate)) (.ifStatement :: anc) (nid :: opens) consequent ++
           eventsOpt (Option.some (.ifStmt nid escape test consequent alternate)) (.ifStatement :: anc) (nid :: opens) alternate)) ++
          [Event.mk .exit (.ifStmt nid escape test consequent alternate) parent anc opens])
  | .varDecl nid decls =>
      Event.mk .enter (.varDecl nid decls) parent anc opens ::
        (eventsList (Option.some (.varDecl nid decls)) (.variableDeclaration :: anc) (nid :: opens) decls ++
          [Event.mk .exit (.varDecl nid decls) parent anc opens])
  | .varDeclarator nid vid ini =>
      Event.mk .enter (.varDeclarator nid vid ini) parent anc opens ::
        ((eventsNode (Option.some (.varDeclarator nid vid ini)) (.variableDeclarator :: anc) (nid :: opens) vid ++
          eventsOpt (Option.some (.varDeclarator nid vid ini)) (.variableDeclarator :: anc) (nid :: opens) ini) ++
          [Event.mk .exit (.varDeclarator nid vid ini) parent anc opens])
  | .exprStmt nid e =>
      Event.mk .enter (.exprStmt nid e) parent anc opens ::
        (eventsNode (Option.some (.exprStmt nid e)) (.expressionStatement :: anc) (nid :: opens) e ++
          [Event.mk .exit (.exprStmt nid e) parent anc opens])
  | .blockStmt nid body =>
      Event.mk .enter (.blockStmt nid body) parent anc opens ::
        (eventsList (Option.some (.blockStmt nid body)) (.blockStatement :: anc) (nid :: opens) body ++
          [Event.mk .exit (.blockStmt nid body) parent anc opens])
  | .callExpr nid callee args opt =>
      Event.mk .enter (.callExpr nid callee args opt) parent anc opens ::
        ((eventsNode (Option.some (.callExpr nid callee args opt)) (.callExpression :: anc) (nid :: opens) callee ++
          eventsList (Option.some (.callExpr nid callee args opt)) (.callExpression :: anc) (nid :: opens) args) ++
          [Event.mk .exit (.callExpr nid callee args opt) parent anc opens])
  | .memberExpr nid obj prop opt =>
      Event.mk .enter (.memberExpr nid obj prop opt) parent anc opens ::
        ((eventsNode (Option.some (.memberExpr nid obj prop opt)) (.memberExpression :: anc) (nid :: opens) obj ++
          eventsNode (Option.some (.memberExpr nid obj prop opt)) (.memberExpression :: anc) (nid :: opens) prop) ++
          [Event.mk .exit (.memberExpr nid obj prop opt) parent anc opens])
  | .chainExpr nid e =>
      Event.mk .enter (.chainExpr nid e) parent anc opens ::
        (eventsNode (Option.some (.chainExpr nid e)) (.chainExpression :: anc) (nid :: opens) e ++
          [Event.mk .exit (.chainExpr nid e) parent anc opens])
  | .identifier nid name g =>
      [Event.mk .enter (.identifier nid name g) parent anc opens,
       Event.mk .exit (.identifier nid name g) parent anc opens]
  | .thisExpr nid =>
      [Event.mk .enter (.thisExpr nid) parent anc opens,
       Event.mk .exit (.thisExpr nid) parent anc opens]
  | .literal nid =>
      [Event.mk .enter (.literal nid) parent anc opens,
       Event.mk .exit (.literal nid) parent anc opens]
/-- Events of a list of sibling nodes, in order. -/
def eventsList (parent : Option Node) (anc : List NType) (opens : List Nat) : NodeList → List Event
  | .nil => []
  | .cons h t => eventsNode parent anc opens h ++ eventsList parent anc opens t
/-- Events of an optional child node. -/
def eventsOpt (parent : Option Node) (anc : List NType) (opens : List Nat) : NodeOpt → List Event
  | .none => []
  | .some n => eventsNode parent anc opens n
end

/-- Event sequence of a whole analyzed file, starting at the Program root. -/
def programEvents (prog : Node) : List Event :=
  eventsNode Option.none [] [] prog

/-- Tracker state transition for one event: the enter callbacks fire on enter
events, the exit callbacks on exit events.  Rule callbacks never mutate the
tracker state, so this covers every state change of the module. -/
def stepEvent (mi : ModuleInfo) (st : TrackerState) (e : Event) : TrackerState :=
  match e.phase with
  | .enter => trackerEnter mi e.parent st e.node
  | .exit => trackerExit mi st e.node

/-- Tracker state after a sequence of events. -/
def runEvents (mi : ModuleInfo) (st : TrackerState) (evs : List Event) : TrackerState :=
  evs.foldl (stepEvent mi) st

/-- Violations produced by a rule over a sequence of events: at each enter
event of a MemberExpression or Identifier node, the matching callback runs
with the tracker state current at that point. -/
def collectReports {R : Type} (mi : ModuleInfo) (cb : Callbacks R) :
    TrackerState → List Event → List R
  | _, [] => []
  | st, e :: rest =>
      (match e.phase with
       | .enter =>
           match e.node.ntype with
           | .memberExpression => cb.onMemberExpression st e.ancestors e.parent e.node
           | .identifier => cb.onIdentifier st e.ancestors e.parent e.node
           | _ => []
       | .exit => []) ++ collectReports mi cb (stepEvent mi st e) rest

/-- Violations reported by a rule over a whole file, in document order. -/
def ruleReports {R : Type} (mi : ModuleInfo) (cb : Callbacks R) (prog : Node) : List R :=
  collectReports mi cb initialTracker (programEvents prog)

/-- Tracker state together with the ids of the nodes that are open (entered
and not yet exited) at one point of the traversal. -/
structure Snapshot where
  state : TrackerState
  openNodes : List Nat
  deriving DecidableEq, Repr

/-- Snapshot taken immediately after an event: after an enter event the node
itself has become open, after an exit event it is closed again. -/
def snapAfter (mi : ModuleInfo) (st : TrackerState) (e : Event) : Snapshot :=
  { state := stepEvent mi st e
    openNodes := match e.phase with
                 | .enter => e.node.nid :: e.opens
                 | .exit => e.opens }

/-- Sequence of snapshots observed after each event of a traversal. -/
def traceFrom (mi : ModuleInfo) : TrackerState → List Event → List Snapshot
  | _, [] => []
  | st, e :: rest => snapAfter mi st e :: traceFrom mi (stepEvent mi st e) rest

/-- Trace of tracker snapshots over a whole file. -/
def ruleTrace (mi : ModuleInfo) (prog : Node) : List Snapshot :=
  traceFrom mi initialTracker (programEvents prog)



/-- Containment predicate for claim C8: every node recorded in a tracker slot
is among the currently open (entered, not yet exited) nodes. -/
def slotsOpen (st : TrackerState) (opens : List Nat) : Prop :=
  (∀ i, st.reachableFunctionThatWeAreIn = Option.some i → i ∈ opens) ∧
  (∀ i, st.reachableMethodThatWeAreIn = Option.some i → i ∈ opens) ∧
  (∀ i, st.skippedBlockThatWeAreIn = Option.some i → i ∈ opens)

/-- Frame relation on one tracker slot: after processing a complete subtree the
slot is either unchanged or cleared. -/
def optFrame (a b : Option Nat) : Prop := b = a ∨ b = Option.none

/-- Frame relation on all three tracker slots. -/
def slotFrame (st su : TrackerState) : Prop :=
  optFrame st.reachableFunctionThatWeAreIn su.reachableFunctionThatWeAreIn ∧
  optFrame st.reachableMethodThatWeAreIn su.reachableMethodThatWeAreIn ∧
  optFrame st.skippedBlockThatWeAreIn su.skippedBlockThatWeAreIn

/-- Induction invariant for claim C8: a well-nested event block run at open
level opens preserves the frame relation and keeps every snapshot contained. -/
def GoodEvents (mi : ModuleInfo) (opens : List Nat) (l : List Event) : Prop :=
  ∀ st : TrackerState, slotsOpen st opens →
    slotFrame st (runEvents mi st l) ∧
    ∀ s ∈ traceFrom mi st l, slotsOpen s.state s.openNodes

/-! Concrete analyzed files used by the claim theorems.  Node ids are arbitrary
distinct naturals standing for object identity. -/

/-- ModuleInfo for a file with no component class and no reachable names. -/
def miNone : ModuleInfo := ⟨Option.none, [], []⟩

/-- ModuleInfo: node 1 is the component class, renderedCallback is reachable. -/
def miClass : ModuleInfo := ⟨Option.some 1, [], ["renderedCallback"]⟩

/-- ModuleInfo: the module-scoped function init is reachable during SSR. -/
def miInit : ModuleInfo := ⟨Option.none, ["init"], []⟩

/-- ModuleInfo: the module-scoped functions f and g are reachable during SSR. -/
def miFG : ModuleInfo := ⟨Option.none, ["f", "g"], []⟩

/-- Forbidden global names used by the examples. -/
def forbEx : List String := ["window", "document"]

/-- Message ids used by the examples (kind A first, kind B second, matching
the .at(0) and .at(1) lookups of the source). -/
def msgsEx : List String := ["msgA", "msgB"]

/-- Component class whose reachable method renderedCallback evaluates
globalThis.document.addEventListener(cb). -/
def progChainPlain : Node :=
  .program 0 (.cons (.classDecl 1 (.cons (.methodDef 2 (.identifier 3 "renderedCallback" false)
    (.funcExpr 4 .nil (.cons (.exprStmt 5 (.callExpr 6
      (.memberExpr 7 (.memberExpr 8 (.identifier 9 "globalThis" true) (.identifier 10 "document" false) false)
        (.identifier 11 "addEventListener" false) false)
      (.cons (.identifier 12 "cb" false) .nil) false)) .nil))) .nil)) .nil)

/-- Same file with the null-safe form
globalThis.document?.addEventListener(cb). -/
def progChainNullSafe : Node :=
  .program 0 (.cons (.classDecl 1 (.cons (.methodDef 2 (.identifier 3 "renderedCallback" false)
    (.funcExpr 4 .nil (.cons (.exprStmt 5 (.chainExpr 13 (.callExpr 6
      (.memberExpr 7 (.memberExpr 8 (.identifier 9 "globalThis" true) (.identifier 10 "document" false) false)
        (.identifier 11 "addEventListener" false) true)
      (.cons (.identifier 12 "cb" false) .nil) false))) .nil))) .nil)) .nil)

/-- Module-scope statement document?.addEventListener(x): a null-safe access
whose object is the forbidden global document itself. -/
def progDocNullSafe : Node :=
  .program 0 (.cons (.exprStmt 1 (.chainExpr 2 (.callExpr 3
    (.memberExpr 4 (.identifier 5 "document" true) (.identifier 6 "addEventListener" false) true)
    (.cons (.identifier 7 "x" false) .nil) false))) .nil)

/-- Component class whose reachable method evaluates doSomethingWith(window),
window resolving to the true global binding. -/
def progBareWindow : Node :=
  .program 0 (.cons (.classDecl 1 (.cons (.methodDef 2 (.identifier 3 "renderedCallback" false)
    (.funcExpr 4 .nil (.cons (.exprStmt 5 (.callExpr 6 (.identifier 7 "doSomethingWith" false)
      (.cons (.identifier 8 "window" true) .nil) false)) .nil))) .nil)) .nil)

/-- Same file where window resolves to a local shadowing declaration, so the
external resolver answers false on that occurrence. -/
def progShadowWindow : Node :=
  .program 0 (.cons (.classDecl 1 (.cons (.methodDef 2 (.identifier 3 "renderedCallback" false)
    (.funcExpr 4 .nil (.cons (.exprStmt 5 (.callExpr 6 (.identifier 7 "doSomethingWith" false)
      (.cons (.identifier 8 "window" false) .nil) false)) .nil))) .nil)) .nil)

/-- Module-scope recognized escape guard that contains another recognized
escape guard, followed (still inside the outer guard) by
doSomethingWith(window). -/
def progNestedGuard : Node :=
  .program 0 (.cons (.ifStmt 1 true (.identifier 2 "cond" false) (.blockStmt 3
    (.cons (.ifStmt 4 true (.identifier 5 "c2" false) (.blockStmt 6 .nil) .none)
    (.cons (.exprStmt 7 (.callExpr 8 (.identifier 9 "doSomethingWith" false)
      (.cons (.identifier 10 "window" true) .nil) false)) .nil))) .none) .nil)

/-- Module-scope recognized escape guard directly containing
doSomethingWith(window). -/
def progSimpleGuard : Node :=
  .program 0 (.cons (.ifStmt 1 true (.identifier 2 "cond" false) (.blockStmt 3
    (.cons (.exprStmt 7 (.callExpr 8 (.identifier 9 "doSomethingWith" false)
      (.cons (.identifier 10 "window" true) .nil) false)) .nil)) .none) .nil)

/-- Component class with the access this.someForbiddenProp both in a method
that is not reachable during SSR (other) and in a reachable one
(renderedCallback). -/
def progThisProp : Node :=
  .program 0 (.cons (.classDecl 1
    (.cons (.methodDef 2 (.identifier 3 "other" false)
      (.funcExpr 4 .nil (.cons (.exprStmt 5 (.memberExpr 6 (.thisExpr 7) (.identifier 8 "someForbiddenProp" false) false)) .nil)))
    (.cons (.methodDef 9 (.identifier 10 "renderedCallback" false)
      (.funcExpr 11 .nil (.cons (.exprStmt 12 (.memberExpr 13 (.thisExpr 14) (.identifier 15 "someForbiddenProp" false) false)) .nil)))
    .nil))) .nil)

/-- Reachable module-scoped function init evaluating process.env.NODE_ENV. -/
def progNodeEnv : Node :=
  .program 0 (.cons (.funcDecl 1 (.some (.identifier 2 "init" false)) .nil
    (.cons (.exprStmt 3 (.memberExpr 4 (.memberExpr 5 (.identifier 6 "process" false) (.identifier 7 "env" false) false)
      (.identifier 8 "NODE_ENV" false) false)) .nil)) .nil)

/-- Reachable module-scoped function init evaluating someOther.env.NODE_ENV. -/
def progOtherEnv : Node :=
  .program 0 (.cons (.funcDecl 1 (.some (.identifier 2 "init" false)) .nil
    (.cons (.exprStmt 3 (.memberExpr 4 (.memberExpr 5 (.identifier 6 "someOther" false) (.identifier 7 "env" false) false)
      (.identifier 8 "NODE_ENV" false) false)) .nil)) .nil)

/-- Reachable module-scoped function f (node 1) containing the nested
reachable-named function g (node 3), whose body refers to window. -/
def progNestedFuncs : Node :=
  .program 0 (.cons (.funcDecl 1 (.some (.identifier 2 "f" false)) .nil
    (.cons (.funcDecl 3 (.some (.identifier 4 "g" false)) .nil
      (.cons (.exprStmt 5 (.callExpr 6 (.identifier 7 "doSomethingWith" false)
        (.cons (.identifier 8 "window" true) .nil) false)) .nil)) .nil)) .nil)

/-- Component class whose reachable method evaluates the chained access
document.body.addEventListener(cb) on the forbidden global document. -/
def progChainedDocBody : Node :=
  .program 0 (.cons (.classDecl 1 (.cons (.methodDef 2 (.identifier 3 "renderedCallback" false)
    (.funcExpr 4 .nil (.cons (.exprStmt 5 (.callExpr 6
      (.memberExpr 7 (.memberExpr 8 (.identifier 9 "document" true) (.identifier 10 "body" false) false)
        (.identifier 11 "addEventListener" false) false)
      (.cons (.identifier 12 "cb" false) .nil) false)) .nil))) .nil)) .nil)



/-! Helper lemmas shared by the claim theorems. -/

/-- Lemma: the common reachability gate of the rules lets a node through
exactly when the position is inside a reachable method, inside a reachable
function, or at module scope, and not inside a skipped block. -/
theorem gate_passes (st : TrackerState) (anc : List NType)
    (hreach : isInsideReachableMethod st = true ∨ isInsideReachableFunction st = true ∨
      inModuleScope anc = true)
    (hskip : isInsideSkippedBlock st = false) :
    ((!(isInsideReachableMethod st) && !(isInsideReachableFunction st) &&
        !(inModuleScope anc)) || isInsideSkippedBlock st) = false := by
  rcases hreach with h | h | h <;> simp [h, hskip]

/-- Lemma: a node with a name is an Identifier. -/
theorem identName_ntype (n : Node) (p : String) (h : identName n = Option.some p) :
    n.ntype = NType.identifier := by
  cases n <;> simp_all [identName, Node.ntype]

theorem optFrame_refl (a : Option Nat) : optFrame a a := Or.inl rfl

theorem slotFrame_refl (st : TrackerState) : slotFrame st st :=
  ⟨optFrame_refl _, optFrame_refl _, optFrame_refl _⟩

theorem optFrame_trans {a b c : Option Nat} (h1 : optFrame a b) (h2 : optFrame b c) :
    optFrame a c := by
  rcases h2 with h2 | h2
  · rw [h2]; exact h1
  · exact Or.inr h2

theorem slotFrame_trans {s1 s2 s3 : TrackerState} (h1 : slotFrame s1 s2)
    (h2 : slotFrame s2 s3) : slotFrame s1 s3 :=
  ⟨optFrame_trans h1.1 h2.1, optFrame_trans h1.2.1 h2.2.1, optFrame_trans h1.2.2 h2.2.2⟩

/-- Lemma: containment is stable under the frame relation. -/
theorem frame_preserves {st su : TrackerState} {opens : List Nat}
    (hs : slotsOpen st opens) (hf : slotFrame st su) : slotsOpen su opens := by
  obtain ⟨h1, h2, h3⟩ := hs
  obtain ⟨f1, f2, f3⟩ := hf
  refine ⟨fun i hi => ?_, fun i hi => ?_, fun i hi => ?_⟩
  · rcases f1 with f | f
    · exact h1 i (f ▸ hi)
    · rw [f] at hi; exact absurd hi (by simp)
  · rcases f2 with f | f
    · exact h2 i (f ▸ hi)
    · rw [f] at hi; exact absurd hi (by simp)
  · rcases f3 with f | f
    · exact h3 i (f ▸ hi)
    · rw [f] at hi; exact absurd hi (by simp)

theorem runEvents_append (mi : ModuleInfo) (st : TrackerState) (l1 l2 : List Event) :
    runEvents mi st (l1 ++ l2) = runEvents mi (runEvents mi st l1) l2 :=
  List.foldl_append ..

theorem traceFrom_append (mi : ModuleInfo) (st : TrackerState) (l1 l2 : List Event) :
    traceFrom mi st (l1 ++ l2) = traceFrom mi st l1 ++ traceFrom mi (runEvents mi st l1) l2 := by
  induction l1 generalizing st with
  | nil => simp [traceFrom, runEvents]
  | cons e rest ih =>
      show snapAfter mi st e :: traceFrom mi (stepEvent mi st e) (rest ++ l2) = _
      rw [ih]
      rfl

/-- Lemma: an enter callback either leaves the function slot unchanged or
records the entered node, and in the latter case the matching exit can never
leave that node in the slot. -/
theorem enterFunc_cases (mi : ModuleInfo) (parent : Option Node) (st : TrackerState)
    (n : Node) :
    (trackerEnter mi parent st n).reachableFunctionThatWeAreIn
        = st.reachableFunctionThatWeAreIn ∨
      ((trackerEnter mi parent st n).reachableFunctionThatWeAreIn = Option.some n.nid ∧
        ∀ su : TrackerState,
          (trackerExit mi su n).reachableFunctionThatWeAreIn ≠ Option.some n.nid) := by
  cases n <;> simp only [trackerEnter, trackerExit, Node.nid] <;> (try split) <;> simp <;>
    (refine Or.inr fun su => ?_) <;> (split <;> simp_all)

/-- Lemma: the analogue of enterFunc_cases for the method slot. -/
theorem enterMethod_cases (mi : ModuleInfo) (parent : Option Node) (st : TrackerState)
    (n : Node) :
    (trackerEnter mi parent st n).reachableMethodThatWeAreIn
        = st.reachableMethodThatWeAreIn ∨
      ((trackerEnter mi parent st n).reachableMethodThatWeAreIn = Option.some n.nid ∧
        ∀ su : TrackerState,
          (trackerExit mi su n).reachableMethodThatWeAreIn ≠ Option.some n.nid) := by
  cases n <;> simp only [trackerEnter, trackerExit, Node.nid] <;> (try split) <;> simp <;>
    (refine Or.inr fun su => ?_) <;> (split <;> simp_all)

/-- Lemma: the analogue of enterFunc_cases for the skipped-block slot. -/
theorem enterSkip_cases (mi : ModuleInfo) (parent : Option Node) (st : TrackerState)
    (n : Node) :
    (trackerEnter mi parent st n).skippedBlockThatWeAreIn
        = st.skippedBlockThatWeAreIn ∨
      ((trackerEnter mi parent st n).skippedBlockThatWeAreIn = Option.some n.nid ∧
        ∀ su : TrackerState,
          (trackerExit mi su n).skippedBlockThatWeAreIn ≠ Option.some n.nid) := by
  cases n <;> simp only [trackerEnter, trackerExit, Node.nid] <;> (try split) <;> simp <;>
    (refine Or.inr fun su => ?_) <;> (split <;> simp_all)

/-- Lemma: an exit callback either preserves the function slot or clears it. -/
theorem exitFunc_cases (mi : ModuleInfo) (su : TrackerState) (n : Node) :
    (trackerExit mi su n).reachableFunctionThatWeAreIn = su.reachableFunctionThatWeAreIn ∨
      (trackerExit mi su n).reachableFunctionThatWeAreIn = Option.none := by
  cases n <;> simp only [trackerExit] <;> (try split) <;> simp

/-- Lemma: an exit callback either preserves the method slot or clears it. -/
theorem exitMethod_cases (mi : ModuleInfo) (su : TrackerState) (n : Node) :
    (trackerExit mi su n).reachableMethodThatWeAreIn = su.reachableMethodThatWeAreIn ∨
      (trackerExit mi su n).reachableMethodThatWeAreIn = Option.none := by
  cases n <;> simp only [trackerExit] <;> (try split) <;> simp

/-- Lemma: an exit callback either preserves the skipped slot or clears it. -/
theorem exitSkip_cases (mi : ModuleInfo) (su : TrackerState) (n : Node) :
    (trackerExit mi su n).skippedBlockThatWeAreIn = su.skippedBlockThatWeAreIn ∨
      (trackerExit mi su n).skippedBlockThatWeAreIn = Option.none := by
  cases n <;> simp only [trackerExit] <;> (try split) <;> simp

/-- Lemma: pure option bookkeeping combining the enter, inner-frame and exit
case splits of one slot into the frame property across a whole subtree. -/
theorem slot_wrap (a b c d : Option Nat) (nid : Nat)
    (henter : b = a ∨ (b = Option.some nid ∧ d ≠ Option.some nid))
    (hframe : optFrame b c)
    (hexit : d = c ∨ d = Option.none) : optFrame a d := by
  rcases hexit with h | h
  · rcases hframe with hf | hf
    · rcases henter with he | ⟨he, hd⟩
      · exact Or.inl (by rw [h, hf, he])
      · exact absurd (by rw [h, hf, he]) hd
    · exact Or.inr (by rw [h, hf])
  · exact Or.inr h

/-- Lemma: if the events between the enter and the exit of a node preserve
the frame, then the matched enter/exit pair around them does too. -/
theorem enter_exit_frame (mi : ModuleInfo) (parent : Option Node) (st su : TrackerState)
    (n : Node) (h : slotFrame (trackerEnter mi parent st n) su) :
    slotFrame st (trackerExit mi su n) := by
  obtain ⟨h1, h2, h3⟩ := h
  refine ⟨?_, ?_, ?_⟩
  · refine slot_wrap _ _ _ _ n.nid ?_ h1 (exitFunc_cases mi su n)
    rcases enterFunc_cases mi parent st n with he | ⟨he, hd⟩
    · exact Or.inl he
    · exact Or.inr ⟨he, hd su⟩
  · refine slot_wrap _ _ _ _ n.nid ?_ h2 (exitMethod_cases mi su n)
    rcases enterMethod_cases mi parent st n with he | ⟨he, hd⟩
    · exact Or.inl he
    · exact Or.inr ⟨he, hd su⟩
  · refine slot_wrap _ _ _ _ n.nid ?_ h3 (exitSkip_cases mi su n)
    rcases enterSkip_cases mi parent st n with he | ⟨he, hd⟩
    · exact Or.inl he
    · exact Or.inr ⟨he, hd su⟩

/-- Lemma: an enter event keeps every slot contained once the entered node is
counted as open. -/
theorem enter_slotsOpen (mi : ModuleInfo) (parent : Option Node) (st : TrackerState)
    (n : Node) (opens : List Nat) (h : slotsOpen st opens) :
    slotsOpen (trackerEnter mi parent st n) (n.nid :: opens) := by
  obtain ⟨h1, h2, h3⟩ := h
  refine ⟨fun i hi => ?_, fun i hi => ?_, fun i hi => ?_⟩
  · rcases enterFunc_cases mi parent st n with he | ⟨he, _⟩
    · exact List.mem_cons_of_mem _ (h1 i (he ▸ hi))
    · rw [he] at hi
      simp only [Option.some.injEq] at hi
      exact hi ▸ List.mem_cons_self _ _
  · rcases enterMethod_cases mi parent st n with he | ⟨he, _⟩
    · exact List.mem_cons_of_mem _ (h2 i (he ▸ hi))
    · rw [he] at hi
      simp only [Option.some.injEq] at hi
      exact hi ▸ List.mem_cons_self _ _
  · rcases enterSkip_cases mi parent st n with he | ⟨he, _⟩
    · exact List.mem_cons_of_mem _ (h3 i (he ▸ hi))
    · rw [he] at hi
      simp only [Option.some.injEq] at hi
      exact hi ▸ List.mem_cons_self _ _

theorem good_nil (mi : ModuleInfo) (opens : List Nat) : GoodEvents mi opens [] := by
  intro st hst
  exact ⟨slotFrame_refl st, by simp [traceFrom]⟩

theorem good_append (mi : ModuleInfo) (opens : List Nat) (l1 l2 : List Event)
    (h1 : GoodEvents mi opens l1) (h2 : GoodEvents mi opens l2) :
    GoodEvents mi opens (l1 ++ l2) := by
  intro st hst
  obtain ⟨hf1, ht1⟩ := h1 st hst
  obtain ⟨hf2, ht2⟩ := h2 (runEvents mi st l1) (frame_preserves hst hf1)
  refine ⟨?_, ?_⟩
  · rw [runEvents_append]
    exact slotFrame_trans hf1 hf2
  · intro s hs
    rw [traceFrom_append] at hs
    rcases List.mem_append.mp hs with h | h
    · exact ht1 s h
    · exact ht2 s h

/-- Lemma: a well-nested enter/children/exit block built around good inner
events is itself good. -/
theorem good_wrap (mi : ModuleInfo) (n : Node) (parent : Option Node) (anc : List NType)
    (opens : List Nat) (inner : List Event)
    (hinner : GoodEvents mi (n.nid :: opens) inner) :
    GoodEvents mi opens
      (Event.mk .enter n parent anc opens :: (inner ++ [Event.mk .exit n parent anc opens])) := by
  intro st hst
  have h1 : slotsOpen (trackerEnter mi parent st n) (n.nid :: opens) :=
    enter_slotsOpen mi parent st n opens hst
  obtain ⟨hfr, htr⟩ := hinner (trackerEnter mi parent st n) h1
  have hrun : runEvents mi st
      (Event.mk .enter n parent anc opens :: (inner ++ [Event.mk .exit n parent anc opens]))
      = trackerExit mi (runEvents mi (trackerEnter mi parent st n) inner) n := by
    show runEvents mi (trackerEnter mi parent st n)
      (inner ++ [Event.mk .exit n parent anc opens]) = _
    rw [runEvents_append]
    rfl
  refine ⟨?_, ?_⟩
  · rw [hrun]
    exact enter_exit_frame mi parent st _ n hfr
  · intro s hs
    have hm : s ∈ snapAfter mi st (Event.mk .enter n parent anc opens) ::
        traceFrom mi (trackerEnter mi parent st n)
          (inner ++ [Event.mk .exit n parent anc opens]) := hs
    cases hm with
    | head => exact h1
    | tail _ h2m =>
        rw [traceFrom_append] at h2m
        rcases List.mem_append.mp h2m with h | h
        · exact htr s h
        · have heq : s = snapAfter mi (runEvents mi (trackerEnter mi parent st n) inner)
              (Event.mk .exit n parent anc opens) := by
            simpa [traceFrom] using h
          rw [heq]
          exact frame_preserves hst (enter_exit_frame mi parent st _ n hfr)


mutual
/-- Lemma: the main structural induction for claim C8, node case. -/
theorem goodNode (mi : ModuleInfo) (parent : Option Node) (anc : List NType)
    (opens : List Nat) : (n : Node) → GoodEvents mi opens (eventsNode parent anc opens n)
  | .program nid body =>
      good_wrap mi (.program nid body) parent anc opens _
        (goodList mi (Option.some (.program nid body)) (.program :: anc) (nid :: opens) body)
  | .classDecl nid body =>
      good_wrap mi (.classDecl nid body) parent anc opens _
        (goodList mi (Option.some (.classDecl nid body)) (.classDeclaration :: anc)
          (nid :: opens) body)
  | .funcDecl nid fid params body =>
      good_wrap mi (.funcDecl nid fid params body) parent anc opens _
        (good_append mi (nid :: opens) _ _
          (goodOpt mi (Option.some (.funcDecl nid fid params body))
            (.functionDeclaration :: anc) (nid :: opens) fid)
          (good_append mi (nid :: opens) _ _
            (goodList mi (Option.some (.funcDecl nid fid params body))
              (.functionDeclaration :: anc) (nid :: opens) params)
            (goodList mi (Option.some (.funcDecl nid fid params body))
              (.functionDeclaration :: anc) (nid :: opens) body)))
  | .funcExpr nid params body =>
      good_wrap mi (.funcExpr nid params body) parent anc opens _
        (good_append mi (nid :: opens) _ _
          (goodList mi (Option.some (.funcExpr nid params body))
            (.functionExpression :: anc) (nid :: opens) params)
          (goodList mi (Option.some (.funcExpr nid params body))
            (.functionExpression :: anc) (nid :: opens) body))
  | .arrowFuncExpr nid params body =>
      good_wrap mi (.arrowFuncExpr nid params body) parent anc opens _
        (good_append mi (nid :: opens) _ _
          (goodList mi (Option.some (.arrowFuncExpr nid params body))
            (.arrowFunctionExpression :: anc) (nid :: opens) params)
          (goodList mi (Option.some (.arrowFuncExpr nid params body))
            (.arrowFunctionExpression :: anc) (nid :: opens) body))
  | .methodDef nid key value =>
      good_wrap mi (.methodDef nid key value) parent anc opens _
        (good_append mi (nid :: opens) _ _
          (goodNode mi (Option.some (.methodDef nid key value))
            (.methodDefinition :: anc) (nid :: opens) key)
          (goodNode mi (Option.some (.methodDef nid key value))
            (.methodDefinition :: anc) (nid :: opens) value))
  | .ifStmt nid escape test consequent alternate =>
      good_wrap mi (.ifStmt nid escape test consequent alternate) parent anc opens _
        (good_append mi (nid :: opens) _ _
          (goodNode mi (Option.some (.ifStmt nid escape test consequent alternate))
            (.ifStatement :: anc) (nid :: opens) test)
          (good_append mi (nid :: opens) _ _
            (goodNode mi (Option.some (.ifStmt nid escape test consequent alternate))
              (.ifStatement :: anc) (nid :: opens) consequent)
            (goodOpt mi (Option.some (.ifStmt nid escape test consequent alternate))
              (.ifStatement :: anc) (nid :: opens) alternate)))
  | .varDecl nid decls =>
      good_wrap mi (.varDecl nid decls) parent anc opens _
        (goodList mi (Option.some (.varDecl nid decls)) (.variableDeclaration :: anc)
          (nid :: opens) decls)
  | .varDeclarator nid vid ini =>
      good_wrap mi (.varDeclarator nid vid ini) parent anc opens _
        (good_append mi (nid :: opens) _ _
          (goodNode mi (Option.some (.varDeclarator nid vid ini))
            (.variableDeclarator :: anc) (nid :: opens) vid)
          (goodOpt mi (Option.some (.varDeclarator nid vid ini))
            (.variableDeclarator :: anc) (nid :: opens) ini))
  | .exprStmt nid e =>
      good_wrap mi (.exprStmt nid e) parent anc opens _
        (goodNode mi (Option.some (.exprStmt nid e)) (.expressionStatement :: anc)
          (nid :: opens) e)
  | .blockStmt nid body =>
      good_wrap mi (.blockStmt nid body) parent anc opens _
        (goodList mi (Option.some (.blockStmt nid body)) (.blockStatement :: anc)
          (nid :: opens) body)
  | .callExpr nid callee args opt =>
      good_wrap mi (.callExpr nid callee args opt) parent anc opens _
        (good_append mi (nid :: opens) _ _
          (goodNode mi (Option.some (.callExpr nid callee args opt))
            (.callExpression :: anc) (nid :: opens) callee)
          (goodList mi (Option.some (.callExpr nid callee args opt))
            (.callExpression :: anc) (nid :: opens) args))
  | .memberExpr nid obj prop opt =>
      good_wrap mi (.memberExpr nid obj prop opt) parent anc opens _
        (good_append mi (nid :: opens) _ _
          (goodNode mi (Option.some (.memberExpr nid obj prop opt))
            (.memberExpression :: anc) (nid :: opens) obj)
          (goodNode mi (Option.some (.memberExpr nid obj prop opt))
            (.memberExpression :: anc) (nid :: opens) prop))
  | .chainExpr nid e =>
      good_wrap mi (.chainExpr nid e) parent anc opens _
        (goodNode mi (Option.some (.chainExpr nid e)) (.chainExpression :: anc)
          (nid :: opens) e)
  | .identifier nid name g =>
      good_wrap mi (.identifier nid name g) parent anc opens [] (good_nil mi (nid :: opens))
  | .thisExpr nid =>
      good_wrap mi (.thisExpr nid) parent anc opens [] (good_nil mi (nid :: opens))
  | .literal nid =>
      good_wrap mi (.literal nid) parent anc opens [] (good_nil mi (nid :: opens))

/-- Lemma: the main structural induction for claim C8, sibling-list case. -/
theorem goodList (mi : ModuleInfo) (parent : Option Node) (anc : List NType)
    (opens : List Nat) : (l : NodeList) → GoodEvents mi opens (eventsList parent anc opens l)
  | .nil => good_nil mi opens
  | .cons h t =>
      good_append mi opens _ _ (goodNode mi parent anc opens h)
        (goodList mi parent anc opens t)

/-- Lemma: the main structural induction for claim C8, optional-child case. -/
theorem goodOpt (mi : ModuleInfo) (parent : Option Node) (anc : List NType)
    (opens : List Nat) : (o : NodeOpt) → GoodEvents mi opens (eventsOpt parent anc opens o)
  | .none => good_nil mi opens
  | .some n => goodNode mi parent anc opens n
end


/-! Claim theorems. -/

/-- Claim C1: for every member access whose object is the identifier
globalThis resolving to the true global binding, whose parent is itself a
member access that is not optional-chained, and whose property name is in the
forbidden set, rule 4.2 reports exactly one kind B violation carrying the
forbidden property name and the next-level property name, provided the
position is inside a reachable method or reachable function or at true module
scope and not inside a skipped block.  Concretely, the file progChainPlain
(globalThis.document.addEventListener(cb) in a reachable method) yields
exactly that one violation, and the null-safe variant progChainNullSafe
(globalThis.document?.addEventListener(cb)) yields none. -/
theorem c1_globalThis_chain_kind_b
    (forbidden msgs : List String) (st : TrackerState) (anc : List NType)
    (pnid : Nat) (pobj pprop : Node) (onid pid nid : Nat) (pname : String) (g2 nopt : Bool)
    (hreach : isInsideReachableMethod st = true ∨ isInsideReachableFunction st = true ∨
      inModuleScope anc = true)
    (hskip : isInsideSkippedBlock st = false)
    (hf : pname ∈ forbidden) :
    noReferenceDuringSSR_MemberExpression forbidden msgs st anc
      (Option.some (.memberExpr pnid pobj pprop false))
      (.memberExpr nid (.identifier onid "globalThis" true) (.identifier pid pname g2) nopt)
      = [{ messageId := msgs[1]?, nodeId := nid, identifier := Option.some pname,
           property := identName pprop }]
    ∧ ruleReports miClass (noReferenceDuringSSR forbEx msgsEx) progChainPlain
      = [{ messageId := Option.some "msgB", nodeId := 8, identifier := Option.some "document",
           property := Option.some "addEventListener" }]
    ∧ ruleReports miClass (noReferenceDuringSSR forbEx msgsEx) progChainNullSafe = [] := by
  refine ⟨?_, by decide, by decide⟩
  simp [noReferenceDuringSSR_MemberExpression, gate_passes st anc hreach hskip,
    Node.ntype, identName, isGlobalIdentifier, nodeOptional, hf]

/-- Witness for claim C1, instantiated inside a reachable method with the
shapes of the progChainPlain example. -/
theorem c1_globalThis_chain_kind_b_witness :
    noReferenceDuringSSR_MemberExpression forbEx msgsEx
      ⟨true, Option.none, Option.some 2, Option.none⟩ [NType.functionExpression]
      (Option.some (.memberExpr 7 (.literal 99) (.identifier 11 "addEventListener" false) false))
      (.memberExpr 8 (.identifier 9 "globalThis" true) (.identifier 10 "document" false) false)
      = [{ messageId := msgsEx[1]?, nodeId := 8, identifier := Option.some "document",
           property := identName (Node.identifier 11 "addEventListener" false) }] :=
  (c1_globalThis_chain_kind_b forbEx msgsEx
    ⟨true, Option.none, Option.some 2, Option.none⟩ [NType.functionExpression]
    7 (.literal 99) (.identifier 11 "addEventListener" false) 9 10 8 "document" false false
    (Or.inl (by decide)) (by decide) (by decide)).1

/-- Claim C2 counterexample: the claim states that null-safe access forms are
always exempted for any object identifier, including forbidden global names
such as document.  On the code, the module-scope access
document?.addEventListener(x) (file progDocNullSafe, the member access being
node 4 with optional true) is reported with message kind A: the forbidden-name
test of the non-chained branch does not consult the optional flag. -/
theorem c2_counterexample_document_nullsafe :
    ruleReports miNone (noReferenceDuringSSR forbEx msgsEx) progDocNullSafe
      = [{ messageId := Option.some "msgA", nodeId := 4, identifier := Option.some "document",
           property := Option.none }]
    ∧ ruleReports miNone (noReferenceDuringSSR forbEx msgsEx) progDocNullSafe ≠ [] := by
  refine ⟨by decide, by decide⟩

/-- Claim C2 as amended: null-safe access forms are exempted only when the
accessed object is globalThis (and globalThis itself is not in the forbidden
set): a member access on globalThis whose parent member access is optional
yields no violation, and a direct optional member access on globalThis yields
no violation; but an optional member access on a directly forbidden global
identifier is still reported with message kind A. -/
theorem c2_nullsafe_globalThis_only
    (forbidden msgs : List String) (st : TrackerState) (anc : List NType)
    (hng : "globalThis" ∉ forbidden) :
    (∀ (pnid onid nid : Nat) (pobj pprop prop : Node) (g nopt : Bool),
       noReferenceDuringSSR_MemberExpression forbidden msgs st anc
         (Option.some (.memberExpr pnid pobj pprop true))
         (.memberExpr nid (.identifier onid "globalThis" g) prop nopt) = [])
    ∧ (∀ (parent : Option Node) (nid onid : Nat) (prop : Node) (g : Bool),
       parent.map Node.ntype ≠ Option.some NType.memberExpression →
       noReferenceDuringSSR_MemberExpression forbidden msgs st anc parent
         (.memberExpr nid (.identifier onid "globalThis" g) prop true) = [])
    ∧ (∀ (parent : Option Node) (nid onid : Nat) (oname : String) (prop : Node),
       parent.map Node.ntype ≠ Option.some NType.memberExpression →
       oname ∈ forbidden →
       (isInsideReachableMethod st = true ∨ isInsideReachableFunction st = true ∨
         inModuleScope anc = true) →
       isInsideSkippedBlock st = false →
       noReferenceDuringSSR_MemberExpression forbidden msgs st anc parent
         (.memberExpr nid (.identifier onid oname true) prop true)
       = [{ messageId := msgs[0]?, nodeId := nid, identifier := Option.some oname,
            property := Option.none }]) := by
  refine ⟨?_, ?_, ?_⟩
  · intro pnid onid nid pobj pprop prop g nopt
    simp [noReferenceDuringSSR_MemberExpression, Node.ntype, identName, isGlobalIdentifier,
      nodeOptional]
  · intro parent nid onid prop g hp
    cases prop <;>
      simp [noReferenceDuringSSR_MemberExpression, Node.ntype, identName, isGlobalIdentifier,
        nodeOptional, hp, hng]
  · intro parent nid onid oname prop hp hf hreach hskip
    have hne : oname ≠ "globalThis" := fun h => hng (h ▸ hf)
    simp [noReferenceDuringSSR_MemberExpression, gate_passes st anc hreach hskip,
      Node.ntype, identName, isGlobalIdentifier, hp, hf, hne]

/-- Witness for claim C2 as amended: at module scope, the optional chained
access rooted at globalThis yields no violation. -/
theorem c2_nullsafe_globalThis_only_witness :
    noReferenceDuringSSR_MemberExpression forbEx msgsEx initialTracker [NType.program]
      (Option.some (.memberExpr 7 (.literal 99) (.identifier 11 "addEventListener" false) true))
      (.memberExpr 8 (.identifier 9 "globalThis" true) (.identifier 10 "document" false) false)
      = [] :=
  (c2_nullsafe_globalThis_only forbEx msgsEx initialTracker [NType.program]
    (by decide)).1 7 9 8 (.literal 99) (.identifier 11 "addEventListener" false)
    (.identifier 10 "document" false) true false

/-- Claim C3: a bare identifier whose parent is not a member access, whose
name is in the forbidden set, and which resolves to the true global binding
is reported by rule 4.2 with exactly one kind A violation carrying the name,
in every SSR-reachable position; the same identifier resolving to a local
shadow yields none.  Concretely, doSomethingWith(window) in a reachable method
(file progBareWindow) yields exactly one such violation and the shadowed
variant (file progShadowWindow) yields none. -/
theorem c3_bare_identifier_kind_a
    (forbidden msgs : List String) (st : TrackerState) (anc : List NType)
    (parent : Option Node) (nid : Nat) (name : String)
    (hreach : isInsideReachableMethod st = true ∨ isInsideReachableFunction st = true ∨
      inModuleScope anc = true)
    (hskip : isInsideSkippedBlock st = false)
    (hp : parent.map Node.ntype ≠ Option.some NType.memberExpression)
    (hf : name ∈ forbidden) :
    noReferenceDuringSSR_Identifier forbidden msgs st anc parent (.identifier nid name true)
      = [{ messageId := msgs[0]?, nodeId := nid, identifier := Option.some name,
           property := Option.none }]
    ∧ noReferenceDuringSSR_Identifier forbidden msgs st anc parent (.identifier nid name false)
      = []
    ∧ ruleReports miClass (noReferenceDuringSSR forbEx msgsEx) progBareWindow
      = [{ messageId := Option.some "msgA", nodeId := 8, identifier := Option.some "window",
           property := Option.none }]
    ∧ ruleReports miClass (noReferenceDuringSSR forbEx msgsEx) progShadowWindow = [] := by
  refine ⟨?_, ?_, by decide, by decide⟩ <;>
    simp [noReferenceDuringSSR_Identifier, gate_passes st anc hreach hskip, hp, hf]

/-- Witness for claim C3, instantiated inside a reachable method with the
shapes of the progBareWindow example. -/
theorem c3_bare_identifier_kind_a_witness :
    noReferenceDuringSSR_Identifier forbEx msgsEx
      ⟨true, Option.none, Option.some 2, Option.none⟩ [NType.functionExpression]
      (Option.some (.callExpr 6 (.identifier 7 "doSomethingWith" false) .nil false))
      (.identifier 8 "window" true)
      = [{ messageId := msgsEx[0]?, nodeId := 8, identifier := Option.some "window",
           property := Option.none }] :=
  (c3_bare_identifier_kind_a forbEx msgsEx
    ⟨true, Option.none, Option.some 2, Option.none⟩ [NType.functionExpression]
    (Option.some (.callExpr 6 (.identifier 7 "doSomethingWith" false) .nil false))
    8 "window" (Or.inl (by decide)) (by decide) (by decide) (by decide)).1


/-- Claim C4 counterexample: the claim states that a forbidden reference
lexically inside a recognized escape guard yields zero violations, including
when the guard contains another recognized guard as a nested conditional.  On
the code, in file progNestedGuard the identifier window (node 10) sits inside
the recognized outer guard (node 1) after a nested recognized guard (node 4)
has been entered and exited; the exit of the inner guard cleared the single
skipped-block slot, so the reference is reported. -/
theorem c4_counterexample_nested_guard :
    ruleReports miNone (noReferenceDuringSSR forbEx msgsEx) progNestedGuard
      = [{ messageId := Option.some "msgA", nodeId := 10, identifier := Option.some "window",
           property := Option.none }]
    ∧ ruleReports miNone (noReferenceDuringSSR forbEx msgsEx) progNestedGuard ≠ [] := by
  refine ⟨by decide, by decide⟩

/-- Claim C4 as amended: while the tracker records a skipped block, all four
rule callbacks report nothing, regardless of reachability; hence a forbidden
reference inside a recognized escape guard yields zero violations provided no
nested recognized guard inside it has exited before the reference (the exit of
a nested recognized guard clears the single skipped-block slot).  Concretely,
the file progSimpleGuard, whose guard contains no nested recognized guard,
yields zero violations. -/
theorem c4_skipped_block_suppresses (st : TrackerState)
    (hskip : isInsideSkippedBlock st = true) :
    (∀ (forbidden msgs : List String) (anc : List NType) (parent : Option Node) (n : Node),
       noReferenceDuringSSR_MemberExpression forbidden msgs st anc parent n = [])
    ∧ (∀ (forbidden msgs : List String) (anc : List NType) (parent : Option Node) (n : Node),
       noReferenceDuringSSR_Identifier forbidden msgs st anc parent n = [])
    ∧ (∀ (props : List String) (n : Node),
       noPropertyAccessDuringSSR_MemberExpression props st n = [])
    ∧ (∀ (anc : List NType) (parent : Option Node) (n : Node),
       noNodeEnvInSSR_MemberExpression st anc parent n = [])
    ∧ ruleReports miNone (noReferenceDuringSSR forbEx msgsEx) progSimpleGuard = [] := by
  refine ⟨?_, ?_, ?_, ?_, by decide⟩
  · intro forbidden msgs anc parent n
    cases n <;> simp [noReferenceDuringSSR_MemberExpression, hskip]
  · intro forbidden msgs anc parent n
    cases n <;> simp [noReferenceDuringSSR_Identifier, hskip]
  · intro props n
    cases n <;> simp [noPropertyAccessDuringSSR_MemberExpression, hskip]
  · intro anc parent n
    cases n <;> simp [noNodeEnvInSSR_MemberExpression, hskip]

/-- Witness for claim C4 as amended: with the skipped-block slot recording
node 1, a forbidden module-scope member access is not reported. -/
theorem c4_skipped_block_suppresses_witness :
    noReferenceDuringSSR_MemberExpression forbEx msgsEx
      ⟨false, Option.none, Option.none, Option.some 1⟩ [NType.program] Option.none
      (.memberExpr 4 (.identifier 5 "document" true) (.identifier 6 "body" false) false)
      = [] :=
  (c4_skipped_block_suppresses ⟨false, Option.none, Option.none, Option.some 1⟩
    (by decide)).1 forbEx msgsEx [NType.program] Option.none
    (.memberExpr 4 (.identifier 5 "document" true) (.identifier 6 "body" false) false)

/-- Claim C5: rule 4.3 reports a member access exactly when its object is the
current-instance reference, its property is an identifier whose name is in the
forbidden property list, the walk is inside a reachable method, and it is not
inside a skipped block; the report is the node itself, once.  Concretely, in
file progThisProp the access this.someForbiddenProp is reported exactly once,
in the reachable method (node 13) and not in the unreachable one (node 6). -/
theorem c5_this_property_iff (props : List String) (st : TrackerState) :
    (∀ (nid : Nat) (obj prop : Node) (opt : Bool) (p : String),
       isInsideReachableMethod st = true → isInsideSkippedBlock st = false →
       obj.ntype = NType.thisExpression → identName prop = Option.some p → p ∈ props →
       noPropertyAccessDuringSSR_MemberExpression props st (.memberExpr nid obj prop opt)
         = [nid])
    ∧ (∀ (nid : Nat) (obj prop : Node) (opt : Bool),
       noPropertyAccessDuringSSR_MemberExpression props st (.memberExpr nid obj prop opt)
           ≠ [] →
       isInsideReachableMethod st = true ∧ isInsideSkippedBlock st = false ∧
         obj.ntype = NType.thisExpression ∧
         ∃ p : String, identName prop = Option.some p ∧ p ∈ props)
    ∧ (∀ n : Node, n.ntype ≠ NType.memberExpression →
       noPropertyAccessDuringSSR_MemberExpression props st n = [])
    ∧ ruleReports miClass (noPropertyAccessDuringSSR ["someForbiddenProp"]) progThisProp
      = [13] := by
  refine ⟨?_, ?_, ?_, by decide⟩
  · intro nid obj prop opt p hm hs hobj hprop hf
    simp [noPropertyAccessDuringSSR_MemberExpression, hm, hs, hobj, hprop, hf,
      identName_ntype prop p hprop]
  · intro nid obj prop opt hne
    simp only [noPropertyAccessDuringSSR_MemberExpression] at hne
    split at hne
    · exact absurd rfl hne
    · rename_i hgate
      split at hne
      · rename_i hcond
        simp only [Bool.or_eq_true, not_or, Bool.not_eq_true, Bool.not_eq_true',
          Bool.not_eq_false] at hgate
        obtain ⟨hm, hs⟩ := hgate
        simp only [Bool.and_eq_true, beq_iff_eq] at hcond
        obtain ⟨⟨hobj, _⟩, hmatch⟩ := hcond
        refine ⟨hm, hs, hobj, ?_⟩
        cases hq : identName prop with
        | none => rw [hq] at hmatch; exact absurd hmatch (by simp)
        | some p => rw [hq] at hmatch; exact ⟨p, rfl, by simpa using hmatch⟩
      · exact absurd rfl hne
  · intro n hn
    cases n <;> simp_all [Node.ntype, noPropertyAccessDuringSSR_MemberExpression]

/-- Witness for claim C5, instantiated inside a reachable method with the
shape of node 13 of the progThisProp example. -/
theorem c5_this_property_iff_witness :
    noPropertyAccessDuringSSR_MemberExpression ["someForbiddenProp"]
      ⟨true, Option.none, Option.some 9, Option.none⟩
      (.memberExpr 13 (.thisExpr 14) (.identifier 15 "someForbiddenProp" false) false)
      = [13] :=
  (c5_this_property_iff ["someForbiddenProp"]
    ⟨true, Option.none, Option.some 9, Option.none⟩).1 13 (.thisExpr 14)
    (.identifier 15 "someForbiddenProp" false) false "someForbiddenProp"
    (by decide) (by decide) (by decide) (by decide) (by decide)

/-- Claim C6: rule 4.4 reports exactly one violation for every member access
of the exact shape process.env.NODE_ENV under the same reachability gating as
rule 4.2, and none when the innermost object identifier differs from process.
Concretely, process.env.NODE_ENV inside the reachable function init (file
progNodeEnv) yields exactly one violation and someOther.env.NODE_ENV (file
progOtherEnv) yields none. -/
theorem c6_node_env_pattern (st : TrackerState) (anc : List NType) (parent : Option Node)
    (hreach : isInsideReachableMethod st = true ∨ isInsideReachableFunction st = true ∨
      inModuleScope anc = true)
    (hskip : isInsideSkippedBlock st = false) :
    (∀ (nid mnid pnid envnid vnid : Nat) (g1 g2 g3 oopt nopt : Bool),
       noNodeEnvInSSR_MemberExpression st anc parent
         (.memberExpr nid
            (.memberExpr mnid (.identifier pnid "process" g1) (.identifier envnid "env" g2) oopt)
            (.identifier vnid "NODE_ENV" g3) nopt)
       = [{ messageId := Option.some "nodeEnvFound", nodeId := nid,
            identifier := Option.some "NODE_ENV", property := Option.none }])
    ∧ (∀ (nid mnid pnid envnid vnid : Nat) (oname : String) (g1 g2 g3 oopt nopt : Bool),
       oname ≠ "process" →
       noNodeEnvInSSR_MemberExpression st anc parent
         (.memberExpr nid
            (.memberExpr mnid (.identifier pnid oname g1) (.identifier envnid "env" g2) oopt)
            (.identifier vnid "NODE_ENV" g3) nopt)
       = [])
    ∧ ruleReports miInit noNodeEnvInSSR progNodeEnv
      = [{ messageId := Option.some "nodeEnvFound", nodeId := 4,
           identifier := Option.some "NODE_ENV", property := Option.none }]
    ∧ ruleReports miInit noNodeEnvInSSR progOtherEnv = [] := by
  refine ⟨?_, ?_, by decide, by decide⟩
  · intro nid mnid pnid envnid vnid g1 g2 g3 oopt nopt
    simp [noNodeEnvInSSR_MemberExpression, gate_passes st anc hreach hskip,
      Node.ntype, identName]
  · intro nid mnid pnid envnid vnid oname g1 g2 g3 oopt nopt hne
    simp [noNodeEnvInSSR_MemberExpression, gate_passes st anc hreach hskip,
      Node.ntype, identName, hne]

/-- Witness for claim C6, instantiated inside a reachable function with the
shapes of the progNodeEnv example. -/
theorem c6_node_env_pattern_witness :
    noNodeEnvInSSR_MemberExpression
      ⟨false, Option.some 1, Option.none, Option.none⟩ [NType.functionDeclaration]
      Option.none
      (.memberExpr 4
         (.memberExpr 5 (.identifier 6 "process" false) (.identifier 7 "env" false) false)
         (.identifier 8 "NODE_ENV" false) false)
      = [{ messageId := Option.some "nodeEnvFound", nodeId := 4,
           identifier := Option.some "NODE_ENV", property := Option.none }] :=
  (c6_node_env_pattern ⟨false, Option.some 1, Option.none, Option.none⟩
    [NType.functionDeclaration] Option.none (Or.inr (Or.inl (by decide))) (by decide)).1
    4 5 6 7 8 false false false false false


/-- Claim C7 counterexample: the claim states that when a matching function is
entered while another is already active, the slot holds the innermost
currently-entered matching function.  On the code, in file progNestedFuncs the
reachable-named function f (node 1) contains the reachable-named function g
(node 3); immediately after the enter event of g (the fifth event of the
traversal), the slot still holds node 1, the outermost matching function, and
not node 3, the innermost currently-entered matching one. -/
theorem c7_counterexample_outermost_wins :
    (ruleTrace miFG progNestedFuncs)[4]? =
      Option.some ⟨⟨false, Option.some 1, Option.none, Option.none⟩, [3, 1, 0]⟩
    ∧ (Option.some 1 : Option Nat) ≠ Option.some (Node.funcDecl 3
        (.some (.identifier 4 "g" false)) .nil
        (.cons (.exprStmt 5 (.callExpr 6 (.identifier 7 "doSomethingWith" false)
          (.cons (.identifier 8 "window" true) .nil) false)) .nil)).nid := by
  refine ⟨by decide, by decide⟩

/-- Claim C7 as amended: the reachable-function slot is set on entering a
named function declaration, or a function or lambda expression bound directly
to an identifier variable declarator, only when no reachable function is
currently active and the bound name is in the reachable set; it is cleared on
exit only when the exiting node is the recorded node; and when a matching
function is entered while another is already active, the slot keeps the
first-entered (outermost) matching function: no enter event ever overwrites a
non-empty slot. -/
theorem c7_function_slot_first_match (mi : ModuleInfo) (parent : Option Node)
    (st : TrackerState) :
    (∀ (nid fnid : Nat) (fname : String) (g : Bool) (params body : NodeList),
       st.reachableFunctionThatWeAreIn = Option.none →
       fname ∈ mi.moduleScopedFunctionsReachableDuringSSR →
       (trackerEnter mi parent st
          (.funcDecl nid (.some (.identifier fnid fname g)) params body)).reachableFunctionThatWeAreIn
         = Option.some nid)
    ∧ (∀ (nid dnid inid : Nat) (iname : String) (ig : Bool) (ini : NodeOpt)
         (params body : NodeList),
       st.reachableFunctionThatWeAreIn = Option.none →
       iname ∈ mi.moduleScopedFunctionsReachableDuringSSR →
       (trackerEnter mi (Option.some (.varDeclarator dnid (.identifier inid iname ig) ini)) st
          (.funcExpr nid params body)).reachableFunctionThatWeAreIn = Option.some nid)
    ∧ (∀ (nid dnid inid : Nat) (iname : String) (ig : Bool) (ini : NodeOpt)
         (params body : NodeList),
       st.reachableFunctionThatWeAreIn = Option.none →
       iname ∈ mi.moduleScopedFunctionsReachableDuringSSR →
       (trackerEnter mi (Option.some (.varDeclarator dnid (.identifier inid iname ig) ini)) st
          (.arrowFuncExpr nid params body)).reachableFunctionThatWeAreIn = Option.some nid)
    ∧ (∀ (k : Nat) (n : Node),
       st.reachableFunctionThatWeAreIn = Option.some k →
       (trackerEnter mi parent st n).reachableFunctionThatWeAreIn = Option.some k)
    ∧ (∀ (nid : Nat) (fid : NodeOpt) (params body : NodeList),
       st.reachableFunctionThatWeAreIn = Option.some nid →
       (trackerExit mi st (.funcDecl nid fid params body)).reachableFunctionThatWeAreIn
         = Option.none)
    ∧ (∀ (nid k : Nat) (fid : NodeOpt) (params body : NodeList),
       st.reachableFunctionThatWeAreIn = Option.some k → k ≠ nid →
       (trackerExit mi st (.funcDecl nid fid params body)).reachableFunctionThatWeAreIn
         = Option.some k)
    ∧ (∀ (nid : Nat) (params body : NodeList),
       st.reachableFunctionThatWeAreIn = Option.some nid →
       (trackerExit mi st (.funcExpr nid params body)).reachableFunctionThatWeAreIn
         = Option.none)
    ∧ (∀ (nid k : Nat) (params body : NodeList),
       st.reachableFunctionThatWeAreIn = Option.some k → k ≠ nid →
       (trackerExit mi st (.funcExpr nid params body)).reachableFunctionThatWeAreIn
         = Option.some k) := by
  refine ⟨?_, ?_, ?_, ?_, ?_, ?_, ?_, ?_⟩
  · intro nid fnid fname g params body h0 hf
    simp [trackerEnter, h0, hf]
  · intro nid dnid inid iname ig ini params body h0 hf
    simp [trackerEnter, h0, hf]
  · intro nid dnid inid iname ig ini params body h0 hf
    simp [trackerEnter, h0, hf]
  · intro k n hk
    cases n <;> simp [trackerEnter, hk] <;> split <;> simp [hk]
  · intro nid fid params body h
    simp [trackerExit, h]
  · intro nid k fid params body h hne
    simp [trackerExit, h, hne]
  · intro nid params body h
    simp [trackerExit, h]
  · intro nid k params body h hne
    simp [trackerExit, h, hne]

/-- Witness for claim C7 as amended: entering the nested matching function g
of progNestedFuncs while f (node 1) is recorded keeps node 1 in the slot. -/
theorem c7_function_slot_first_match_witness :
    (trackerEnter miFG (Option.some (.funcDecl 1 (.some (.identifier 2 "f" false)) .nil .nil))
      ⟨false, Option.some 1, Option.none, Option.none⟩
      (.funcDecl 3 (.some (.identifier 4 "g" false)) .nil .nil)).reachableFunctionThatWeAreIn
      = Option.some 1 :=
  (c7_function_slot_first_match miFG
    (Option.some (.funcDecl 1 (.some (.identifier 2 "f" false)) .nil .nil))
    ⟨false, Option.some 1, Option.none, Option.none⟩).2.2.2.1 1
    (.funcDecl 3 (.some (.identifier 4 "g" false)) .nil .nil) rfl

/-- Claim C8: over every traversal of every file, each tracker slot is
non-empty only strictly between the enter event of the node it records and the
matching exit event: after every event, any node recorded in the
reachable-function, reachable-method, or skipped-block slot is among the
currently open nodes (entered and not yet exited). -/
theorem c8_containment (mi : ModuleInfo) (prog : Node) :
    ∀ s ∈ ruleTrace mi prog,
      (∀ i, s.state.reachableFunctionThatWeAreIn = Option.some i → i ∈ s.openNodes) ∧
      (∀ i, s.state.reachableMethodThatWeAreIn = Option.some i → i ∈ s.openNodes) ∧
      (∀ i, s.state.skippedBlockThatWeAreIn = Option.some i → i ∈ s.openNodes) := by
  intro s hs
  have h0 : slotsOpen initialTracker [] := by
    refine ⟨?_, ?_, ?_⟩ <;> intro i hi <;> exact absurd hi (by simp [initialTracker])
  exact (goodNode mi Option.none [] [] prog initialTracker h0).2 s hs

/-- Witness for claim C8, applied to the snapshot of progNestedFuncs taken
just after the enter event of the nested function g. -/
theorem c8_containment_witness : (1 : Nat) ∈ ([3, 1, 0] : List Nat) :=
  (c8_containment miFG progNestedFuncs
    ⟨⟨false, Option.some 1, Option.none, Option.none⟩, [3, 1, 0]⟩ (by decide)).1 1 rfl


/-- Claim C9: a member access whose object is a forbidden-global identifier
other than globalThis and whose parent is itself a member access (a chained
access such as document.body.addEventListener) produces no violation from rule
4.2 in any reachability context: the kind B branch requires the object to be
globalThis, the kind A member branch requires the parent not to be a member
access, and the enclosing access has a member expression rather than a plain
identifier as its object; identifiers below a member access are likewise
skipped by the Identifier callback.  Concretely, file progChainedDocBody
yields no violations. -/
theorem c9_chained_non_globalThis (forbidden msgs : List String) (st : TrackerState)
    (anc : List NType) :
    (∀ (pnid nid onid : Nat) (pobj pprop prop : Node) (oname : String) (g popt nopt : Bool),
       oname ≠ "globalThis" →
       noReferenceDuringSSR_MemberExpression forbidden msgs st anc
         (Option.some (.memberExpr pnid pobj pprop popt))
         (.memberExpr nid (.identifier onid oname g) prop nopt) = [])
    ∧ (∀ (parent : Option Node) (nid onid : Nat) (oobj oprop prop : Node) (oopt nopt : Bool),
       noReferenceDuringSSR_MemberExpression forbidden msgs st anc parent
         (.memberExpr nid (.memberExpr onid oobj oprop oopt) prop nopt) = [])
    ∧ (∀ (pnid nid : Nat) (pobj pprop : Node) (popt : Bool) (name : String) (g : Bool),
       noReferenceDuringSSR_Identifier forbidden msgs st anc
         (Option.some (.memberExpr pnid pobj pprop popt)) (.identifier nid name g) = [])
    ∧ ruleReports miClass (noReferenceDuringSSR forbEx msgsEx) progChainedDocBody = [] := by
  refine ⟨?_, ?_, ?_, by decide⟩
  · intro pnid nid onid pobj pprop prop oname g popt nopt hne
    simp [noReferenceDuringSSR_MemberExpression, Node.ntype, identName, isGlobalIdentifier,
      nodeOptional, hne]
  · intro parent nid onid oobj oprop prop oopt nopt
    simp [noReferenceDuringSSR_MemberExpression, Node.ntype, identName, isGlobalIdentifier]
  · intro pnid nid pobj pprop popt name g
    simp [noReferenceDuringSSR_Identifier, Node.ntype]

/-- Witness for claim C9, instantiated with the inner access document.body of
the progChainedDocBody example in a reachable method. -/
theorem c9_chained_non_globalThis_witness :
    noReferenceDuringSSR_MemberExpression forbEx msgsEx
      ⟨true, Option.none, Option.some 2, Option.none⟩ [NType.functionExpression]
      (Option.some (.memberExpr 7 (.literal 99) (.identifier 11 "addEventListener" false) false))
      (.memberExpr 8 (.identifier 9 "document" true) (.identifier 10 "body" false) false)
      = [] :=
  (c9_chained_non_globalThis forbEx msgsEx
    ⟨true, Option.none, Option.some 2, Option.none⟩ [NType.functionExpression]).1
    7 8 9 (.literal 99) (.identifier 11 "addEventListener" false)
    (.identifier 10 "body" false) "document" true false false (by decide)

/-- Claim C10: every tracker and rule callback is total by construction in
this embedding (each is a total Lean function over all node shapes), and on
the unexpected shapes the claim names — a function declaration with no name,
a method with a non-identifier key, a function expression not bound to an
identifier declarator, node kinds with no registered handler, a member access
with a non-identifier object or property, and callbacks invoked on a node of a
different kind — the callbacks fall through, leaving the tracker state
unchanged and reporting nothing. -/
theorem c10_graceful_fallthrough (mi : ModuleInfo) (parent : Option Node)
    (st : TrackerState) (anc : List NType) :
    (∀ (nid : Nat) (params body : NodeList),
       trackerEnter mi parent st (.funcDecl nid .none params body) = st)
    ∧ (∀ (nid k : Nat) (value : Node),
       trackerEnter mi parent st (.methodDef nid (.literal k) value) = st)
    ∧ (∀ (nid : Nat) (params body : NodeList),
       parent.map Node.ntype ≠ Option.some NType.variableDeclarator →
       trackerEnter mi parent st (.funcExpr nid params body) = st ∧
       trackerEnter mi parent st (.arrowFuncExpr nid params body) = st)
    ∧ (∀ (nid dnid k : Nat) (ini : NodeOpt) (params body : NodeList),
       trackerEnter mi (Option.some (.varDeclarator dnid (.literal k) ini)) st
         (.funcExpr nid params body) = st)
    ∧ (∀ n : Node,
       n.ntype ∉ ([.classDeclaration, .functionDeclaration, .functionExpression,
         .arrowFunctionExpression, .methodDefinition, .ifStatement] : List NType) →
       trackerEnter mi parent st n = st ∧ trackerExit mi st n = st)
    ∧ (∀ (forbidden msgs : List String) (n : Node), n.ntype ≠ NType.memberExpression →
       noReferenceDuringSSR_MemberExpression forbidden msgs st anc parent n = [])
    ∧ (∀ (forbidden msgs : List String) (n : Node), n.ntype ≠ NType.identifier →
       noReferenceDuringSSR_Identifier forbidden msgs st anc parent n = [])
    ∧ (∀ (forbidden msgs : List String) (pnid nid k : Nat) (pobj pprop obj : Node)
         (popt opt : Bool),
       noReferenceDuringSSR_MemberExpression forbidden msgs st anc
         (Option.some (.memberExpr pnid pobj pprop popt))
         (.memberExpr nid obj (.literal k) opt) = [])
    ∧ (∀ (props : List String) (nid onid : Nat) (oname : String) (prop : Node) (g opt : Bool),
       noPropertyAccessDuringSSR_MemberExpression props st
         (.memberExpr nid (.identifier onid oname g) prop opt) = [])
    ∧ (∀ (nid onid vnid : Nat) (oname : String) (g1 g3 opt : Bool),
       noNodeEnvInSSR_MemberExpression st anc parent
         (.memberExpr nid (.identifier onid oname g1) (.identifier vnid "NODE_ENV" g3) opt)
       = []) := by
  refine ⟨?_, ?_, ?_, ?_, ?_, ?_, ?_, ?_, ?_, ?_⟩
  · intro nid params body
    simp [trackerEnter]
  · intro nid k value
    simp [trackerEnter]
  · intro nid params body hp
    rcases parent with _ | q
    · constructor <;> simp [trackerEnter]
    · cases q <;> simp_all [Node.ntype, trackerEnter]
  · intro nid dnid k ini params body
    simp [trackerEnter]
  · intro n hn
    cases n <;> simp_all [Node.ntype, trackerEnter, trackerExit]
  · intro forbidden msgs n hn
    cases n <;> simp_all [Node.ntype, noReferenceDuringSSR_MemberExpression]
  · intro forbidden msgs n hn
    cases n <;> simp_all [Node.ntype, noReferenceDuringSSR_Identifier]
  · intro forbidden msgs pnid nid k pobj pprop obj popt opt
    cases obj <;> simp [noReferenceDuringSSR_MemberExpression, Node.ntype, identName]
  · intro props nid onid oname prop g opt
    simp [noPropertyAccessDuringSSR_MemberExpression, Node.ntype]
  · intro nid onid vnid oname g1 g3 opt
    simp [noNodeEnvInSSR_MemberExpression, Node.ntype]

/-- Witness for claim C10: entering an anonymous function declaration leaves
the tracker state unchanged. -/
theorem c10_graceful_fallthrough_witness :
    trackerEnter miNone Option.none initialTracker (.funcDecl 5 .none .nil .nil)
      = initialTracker :=
  (c10_graceful_fallthrough miNone Option.none initialTracker []).1 5 .nil .nil

end RuleHelpers
